import Mathlib

/-!
# Verification of the byzanz-capture camera worker

Shallow embedding of the capture state machine of `src/camera_worker.py`
(class `CameraWorker`) and the pieces of the data model the claims refer to:
the camera-state union (`CameraStates`), the capture-request value
(`CaptureImagesRequest`), the event drain (`empty_event_queue`), the capture
orchestration loop (`captureImages`), the batched configuration write
(`__open_config`), cancellation (`__cancel`), disconnect
(`__disconnect_camera`), autofocus (`__trigger_autofocus`) and camera
discovery (`__find_camera`).

Modelling conventions:
* The Qt signal/slot machinery is modelled as an explicit trace of
  `Action`s (state emissions, file saves/deletes, configuration writes,
  trigger pulses), produced alongside the updated worker record.
* Device input is an explicit list of `WorkerInput`s per drain call; the end
  of the list models the `GP_EVENT_TIMEOUT` result that ends the
  `empty_event_queue` loop.  A cancel command delivered through
  `QApplication.processEvents()` is modelled as the `cancelCommand` input.
* `gp.GPhoto2Error` is modelled by explicit error-injection parameters
  (`Option String` for messages) at the places the claims are about.
* Machine integers are `Nat`; the Python expression
  `int(remaining / expect_files)` equals `Nat` floor division for the
  nonnegative operands occurring here.
-/

namespace ByzanzCapture

/-- `CaptureImagesRequest.CaptureFormat` from `camera_worker.py`. -/
inductive CaptureFormat
  | jpeg
  | jpegAndRaw
deriving DecidableEq

/-- One token of the `string.Template` used as `file_path_template`:
literal text or one of the substitution variables `basename`, `extension`,
`num` that `empty_event_queue` passes to `Template.substitute`. -/
inductive TplPart
  | lit (s : String)
  | basename
  | extension
  | num
deriving DecidableEq

/-- `Template(...).substitute(basename=..., extension=..., num=...)`. -/
def substituteTemplate (tpl : List TplPart) (basename extension num : String) : String :=
  tpl.foldl
    (fun acc p =>
      acc ++ (match p with
        | TplPart.lit s => s
        | TplPart.basename => basename
        | TplPart.extension => extension
        | TplPart.num => num))
    ""

/-- Python `str.zfill`: left-pad with `'0'` to the given width.  (The sign
handling of `zfill` is irrelevant: the worker only applies it to `str` of a
nonnegative counter.) -/
def zfill (s : String) (width : Nat) : String :=
  if width ≤ s.length then s
  else String.mk (List.replicate (width - s.length) '0') ++ s

/-- `os.path.splitext`: split a file name at its last dot, provided some
earlier character of the name is not a dot (so names like `.bashrc` keep no
extension). -/
def splitext (name : String) : String × String :=
  let cs := name.toList
  let idxs := (List.range cs.length).filter
    (fun i => cs.getD i ' ' == '.' && (cs.take i).any (fun c => c != '.'))
  match idxs.getLast? with
  | some i => (String.mk (cs.take i), String.mk (cs.drop i))
  | none => (name, "")

/-- `CaptureImagesRequest` (`camera_worker.py`).  `expectFiles` is stored,
as in the source, and derived from the quality by the constructor
`mkCaptureImagesRequest` below. -/
structure CaptureImagesRequest where
  filePathTemplate : List TplPart
  numImages : Nat
  expectFiles : Nat
  maxBurst : Nat
  manualTrigger : Bool
  imageQuality : CaptureFormat
deriving DecidableEq

/-- `CaptureImagesRequest.__init__`: `expect_files = 2 if image_quality ==
JPEG_AND_RAW else 1`. -/
def mkCaptureImagesRequest (tpl : List TplPart) (numImages : Nat)
    (imageQuality : CaptureFormat) (maxBurst : Nat) (manualTrigger : Bool) :
    CaptureImagesRequest :=
  { filePathTemplate := tpl
    numImages := numImages
    expectFiles := match imageQuality with
      | CaptureFormat.jpegAndRaw => 2
      | CaptureFormat.jpeg => 1
    maxBurst := maxBurst
    manualTrigger := manualTrigger
    imageQuality := imageQuality }

/-- The `CameraStates` union of `camera_worker.py`.  Error payloads that are
`gp.GPhoto2Error` objects in the source are modelled by their message
string. -/
inductive CameraState
  | waiting
  | found (cameraName : String)
  | disconnected (cameraName : Option String) (autoReconnect : Bool)
  | connecting (cameraName : Option String)
  | disconnecting
  | ready (cameraName : Option String)
  | liveViewStarted (currentLightmeterValue : Int)
  | liveViewActive
  | focusStarted
  | focusFinished (success : Bool)
  | liveViewStopped
  | captureInProgress (captureRequest : CaptureImagesRequest) (numCaptured : Nat)
  | captureFinished (captureRequest : CaptureImagesRequest) (elapsedTime : Nat) (numCaptured : Nat)
  | captureCancelling
  | captureCanceled (captureRequest : CaptureImagesRequest) (elapsedTime : Nat)
  | captureError (captureRequest : CaptureImagesRequest) (error : String)
  | ioError (error : String)
  | connectionError (error : String)
deriving DecidableEq

/-- Runtime `isinstance(state, CameraStates.CaptureInProgress)` test. -/
def CameraState.isCaptureInProgress : CameraState → Bool
  | CameraState.captureInProgress _ _ => true
  | _ => false

/-- Mutable fields of the `CameraWorker` object relevant to the claims.
`cameraPresent` models `self.camera` being non-`None`;
`interruptionRequested` models `self.thread().isInterruptionRequested()`. -/
structure CameraWorker where
  state : CameraState
  filesCounter : Nat
  captureComplete : Bool
  shouldCancel : Bool
  cameraPresent : Bool
  cameraName : Option String
  interruptionRequested : Bool
deriving DecidableEq

/-- Hardware events pulled by `camera.wait_for_event`.  `GP_EVENT_TIMEOUT`
is modelled by the end of the input list. -/
inductive DeviceEvent
  | fileAdded (folder : String) (name : String)
  | captureComplete
  | unknownEvent (data : String)
deriving DecidableEq

/-- One item the worker processes while draining: a hardware event, or the
`cancel` command slot run by `QApplication.processEvents()`. -/
inductive WorkerInput
  | hw (ev : DeviceEvent)
  | cancelCommand
deriving DecidableEq

/-- Observable side effects of the worker, in order.  `substitutedNum`
records the `num` argument passed to `Template.substitute`;
`emitState` records a `__set_state` call (the `state_changed` signal). -/
inductive Action
  | emitState (s : CameraState)
  | substitutedNum (num : String)
  | saveFile (targetPath : String)
  | fileReceived (targetPath : String)
  | deleteFile (folder : String) (name : String)
  | setConfigValue (name : String) (value : Nat)
  | triggerCapture
  | applySettings (bundle : String)
deriving DecidableEq

/-- `CameraWorker.__cancel`: set `shouldCancel`, then transition to
`CaptureCancelling`. -/
def cancelHandler (w : CameraWorker) : CameraWorker × List Action :=
  ({ w with shouldCancel := true, state := CameraState.captureCancelling },
   [Action.emitState CameraState.captureCancelling])

/-- The `GP_EVENT_FILE_ADDED` branch of `empty_event_queue` (lines 414-449).
Returns the updated worker, the emitted actions, and whether the branch hit
the `break` (file received but capture not in progress / cancelling). -/
def handleFileAdded (w : CameraWorker) (folder name : String) :
    CameraWorker × List Action × Bool :=
  match w.state with
  | CameraState.captureInProgress req _ =>
    if w.shouldCancel = true ∨ w.interruptionRequested = true then (w, [], true)
    else
      let p := splitext name
      let fc := w.filesCounter + 1
      let numStr := zfill (toString (fc + 1)) 3
      let targetPath := substituteTemplate req.filePathTemplate p.1 p.2 numStr
      let newState :=
        if fc % req.expectFiles = 0 then
          CameraState.captureInProgress req (fc / req.expectFiles)
        else w.state
      let emitActs :=
        if fc % req.expectFiles = 0 then
          [Action.emitState (CameraState.captureInProgress req (fc / req.expectFiles))]
        else []
      ({ w with filesCounter := fc, state := newState },
       [Action.substitutedNum numStr, Action.saveFile targetPath,
        Action.fileReceived targetPath] ++ emitActs ++ [Action.deleteFile folder name],
       false)
  | _ => (w, [], true)

/-- Dispatch of one drained item inside `empty_event_queue`.  The
`GP_EVENT_UNKNOWN` branch only publishes property-change notifications to
observers and never touches the worker fields, so it is a no-op here. -/
def handleInput (w : CameraWorker) : WorkerInput → CameraWorker × List Action × Bool
  | WorkerInput.hw (DeviceEvent.fileAdded folder name) => handleFileAdded w folder name
  | WorkerInput.hw DeviceEvent.captureComplete =>
      ({ w with captureComplete := true }, [], false)
  | WorkerInput.hw (DeviceEvent.unknownEvent _) => (w, [], false)
  | WorkerInput.cancelCommand =>
      let r := cancelHandler w
      (r.1, r.2, false)

/-- `CameraWorker.empty_event_queue`: process queued items until timeout
(end of list) or the `break` in the rejected-file branch. -/
def empty_event_queue : CameraWorker → List WorkerInput → CameraWorker × List Action
  | w, [] => (w, [])
  | w, i :: rest =>
    match handleInput w i with
    | (w1, acts, true) => (w1, acts)
    | (w1, acts, false) =>
      let r := empty_event_queue w1 rest
      (r.1, acts ++ r.2)

/-- Number of `FileAdded` events in a drain input list. -/
def countFileAdded : List WorkerInput → Nat
  | [] => 0
  | WorkerInput.hw (DeviceEvent.fileAdded _ _) :: rest => countFileAdded rest + 1
  | _ :: rest => countFileAdded rest

/-- Number of `FileAdded` events across a whole batch schedule. -/
def countFileAddedBatches : List (List WorkerInput) → Nat
  | [] => 0
  | b :: rest => countFileAdded b + countFileAddedBatches rest

/-- `num_captured` values carried by emitted `CaptureInProgress` states. -/
def cipCount : Action → Option Nat
  | Action.emitState (CameraState.captureInProgress _ n) => some n
  | _ => none

def cipCounts (l : List Action) : List Nat := l.filterMap cipCount

def savePath : Action → Option String
  | Action.saveFile p => some p
  | _ => none

def savePaths (l : List Action) : List String := l.filterMap savePath

def subNum : Action → Option String
  | Action.substitutedNum n => some n
  | _ => none

/-- The sequence numbers substituted into the path template, in order. -/
def subNums (l : List Action) : List String := l.filterMap subNum

def isDelete : Action → Bool
  | Action.deleteFile _ _ => true
  | _ => false

def deleteCount (l : List Action) : Nat := (l.filter isDelete).length

def isTrigger : Action → Bool
  | Action.triggerCapture => true
  | _ => false

def triggerCount (l : List Action) : Nat := (l.filter isTrigger).length

def cfgWrite : Action → Option (String × Nat)
  | Action.setConfigValue n v => some (n, v)
  | _ => none

/-- The burst-count property writes, in order. -/
def cfgWrites (l : List Action) : List (String × Nat) := l.filterMap cfgWrite

/-- The two `Profile` capabilities the capture loop consults
(`use_burst()` and `burstnumber_property_name()`). -/
structure Profile where
  use_burst : Bool
  burstnumber_property_name : String
deriving DecidableEq

/-- The burst count of one loop iteration:
`min(capture_req.max_burst, int(remaining / capture_req.expect_files))`
where `remaining = num_images * expect_files - filesCounter`. -/
def burstVal (req : CaptureImagesRequest) (w : CameraWorker) : Nat :=
  min req.maxBurst ((req.numImages * req.expectFiles - w.filesCounter) / req.expectFiles)

/-- One iteration of the capture loop body (lines 574-595): optional
burst-count write, trigger pulse, inner drain until `captureComplete` (the
batch holds the events the device delivers for this trigger), and the
post-drain rewrite of the burst-count property with the same `burst`
value. -/
def captureIter (prof : Profile) (req : CaptureImagesRequest) (w : CameraWorker)
    (batch : List WorkerInput) : CameraWorker × List Action :=
  let burst := burstVal req w
  let topActs :=
    if prof.use_burst = true ∧ req.manualTrigger = false then
      [Action.setConfigValue prof.burstnumber_property_name burst]
    else []
  let w1 := { w with captureComplete := false }
  let trigActs := if req.manualTrigger = false then [Action.triggerCapture] else []
  let r := empty_event_queue w1 batch
  let botActs :=
    if prof.use_burst = true ∧ req.manualTrigger = false then
      [Action.setConfigValue prof.burstnumber_property_name burst]
    else []
  (r.1, topActs ++ trigActs ++ r.2 ++ botActs)

/-- Error injection: a `gp.GPhoto2Error` with the given message raised in
the body of loop iteration `i`. -/
def errHit (errAt : Option (Nat × String)) (i : Nat) : Option String :=
  match errAt with
  | some km => if km.1 == i then some km.2 else none
  | none => none

/-- The `while remaining > 0 and not shouldCancel and not interruption`
loop of `captureImages` (lines 572-595).  One batch of device input is
consumed per iteration; running out of batches models a device that stops
responding (no further progress is observed).  Returns the error message if
a `gp.GPhoto2Error` was injected into an executed iteration. -/
def captureLoop (prof : Profile) (req : CaptureImagesRequest)
    (errAt : Option (Nat × String)) :
    CameraWorker → List (List WorkerInput) → Nat →
    CameraWorker × List Action × Option String
  | w, [], _ => (w, [], none)
  | w, batch :: rest, i =>
    if 0 < req.numImages * req.expectFiles - w.filesCounter
        ∧ w.shouldCancel = false ∧ w.interruptionRequested = false then
      match errHit errAt i with
      | some msg => (w, [], some msg)
      | none =>
        let r := captureIter prof req w batch
        let r2 := captureLoop prof req errAt r.1 rest (i + 1)
        (r2.1, r.2 ++ r2.2.1, r2.2.2)
    else (w, [], none)

/-- `CameraWorker.__stop_live_view`: only acts when the state is
`LiveViewActive`. -/
def stop_live_view (w : CameraWorker) : CameraWorker × List Action :=
  match w.state with
  | CameraState.liveViewActive =>
    ({ w with state := CameraState.ready w.cameraName },
     [Action.applySettings "stop_live_view",
      Action.emitState CameraState.liveViewStopped,
      Action.emitState (CameraState.ready w.cameraName)])
  | _ => (w, [])

/-- The per-operation reset at the start of `captureImages` (lines
558-561): zero the counters and enter `CaptureInProgress(request, 0)`. -/
def captureStartWorker (w : CameraWorker) (capture_req : CaptureImagesRequest) :
    CameraWorker :=
  { w with
    filesCounter := 0
    captureComplete := false
    state := CameraState.captureInProgress capture_req 0 }

/-- `CameraWorker.captureImages` (lines 548-628): stop live view if
active, drain stragglers, reset the counters, enter
`CaptureInProgress(req, 0)`, apply the start/format settings, run the
trigger/drain loop, publish the outcome state
(`CaptureFinished`/`CaptureCanceled`/`CaptureError`), then the
always-executed cleanup: clear `shouldCancel` and, if the camera object is
still present, apply the stop settings and transition to `Ready` — or to
`ConnectionError` when the cleanup itself raises (`cleanupError`).
`elapsed` stands for the `QElapsedTimer` reading. -/
def captureImages (prof : Profile) (capture_req : CaptureImagesRequest)
    (w : CameraWorker) (preEvents : List WorkerInput)
    (batches : List (List WorkerInput)) (errAt : Option (Nat × String))
    (cleanupError : Option String) (elapsed : Nat) :
    CameraWorker × List Action :=
  let lv := stop_live_view w
  let pre := empty_event_queue lv.1 preEvents
  let w1 := captureStartWorker pre.1 capture_req
  let startActs :=
    [Action.emitState (CameraState.captureInProgress capture_req 0),
     Action.applySettings "start_capture",
     Action.applySettings
       (match capture_req.imageQuality with
        | CaptureFormat.jpegAndRaw => "capture_format_jpeg_and_raw"
        | CaptureFormat.jpeg => "capture_format_jpeg")]
  let lr := captureLoop prof capture_req errAt w1 batches 0
  let w2 := lr.1
  let body :=
    match lr.2.2 with
    | some msg =>
      ({ w2 with state := CameraState.captureError capture_req msg },
       [Action.emitState (CameraState.captureError capture_req msg)])
    | none =>
      if w2.shouldCancel = false then
        let nc := w2.filesCounter / capture_req.expectFiles
        ({ w2 with state := CameraState.captureFinished capture_req elapsed nc },
         [Action.emitState (CameraState.captureFinished capture_req elapsed nc)])
      else
        ({ w2 with state := CameraState.captureCanceled capture_req elapsed },
         [Action.emitState (CameraState.captureCanceled capture_req elapsed)])
  let w3 := { body.1 with shouldCancel := false }
  let cleanup :=
    if w3.cameraPresent = true then
      match cleanupError with
      | none =>
        ({ w3 with state := CameraState.ready w3.cameraName },
         [Action.applySettings "stop_capture",
          Action.emitState (CameraState.ready w3.cameraName)])
      | some e =>
        ({ w3 with state := CameraState.connectionError e },
         [Action.emitState (CameraState.connectionError e)])
    else (w3, [])
  (cleanup.1, lv.2 ++ pre.2 ++ startActs ++ lr.2.1 ++ body.2 ++ cleanup.2)

/-- `CameraWorker.__disconnect_camera`: errors from `camera.exit()`
(`gp.GPhoto2Error`, and `AttributeError` when `self.camera` is already
`None`) are swallowed, so the function is total.  The `Disconnected` state
is emitted with the *current* `camera_name`, which is cleared only
afterwards. -/
def disconnect_camera (w : CameraWorker) (autoReconnect : Bool) :
    CameraWorker × List Action :=
  ({ w with
      state := CameraState.disconnected w.cameraName autoReconnect
      cameraPresent := false
      cameraName := none },
   [Action.emitState CameraState.disconnecting,
    Action.emitState (CameraState.disconnected w.cameraName autoReconnect)])

/-- Outcome of applying the focus-start settings in
`__trigger_autofocus`: success, the Nikon `OutOfFocus` PTP error, or any
other `gp.GPhoto2Error`. -/
inductive FocusOutcome
  | success
  | outOfFocus
  | fatalError (msg : String)
deriving DecidableEq

/-- `CameraWorker.__trigger_autofocus` (lines 528-546): unconditionally
enters `FocusStarted`, applies the focus-start settings, downgrades the
vendor out-of-focus error to `FocusFinished(false)`, re-raises other
device errors (which `__handle_camera_error` turns into `ConnectionError`
followed by a forced disconnect), and in a `finally` step applies the
focus-stop settings and sets `LiveViewActive`. -/
def trigger_autofocus (w : CameraWorker) (outcome : FocusOutcome) :
    CameraWorker × List Action :=
  let started := [Action.emitState CameraState.focusStarted,
                  Action.applySettings "start_autofocus"]
  match outcome with
  | FocusOutcome.success =>
    ({ w with state := CameraState.liveViewActive },
     started ++ [Action.emitState (CameraState.focusFinished true),
       Action.applySettings "stop_autofocus",
       Action.emitState CameraState.liveViewActive])
  | FocusOutcome.outOfFocus =>
    ({ w with state := CameraState.liveViewActive },
     started ++ [Action.emitState (CameraState.focusFinished false),
       Action.applySettings "stop_autofocus",
       Action.emitState CameraState.liveViewActive])
  | FocusOutcome.fatalError msg =>
    let w1 := { w with state := CameraState.connectionError msg }
    let d := disconnect_camera w1 true
    (d.1,
     started ++ [Action.applySettings "stop_autofocus",
       Action.emitState CameraState.liveViewActive,
       Action.emitState (CameraState.connectionError msg)] ++ d.2)

/-- The `while not camera_list and not interrupted` wait of
`__find_camera`: each element pairs the interruption flag sampled at the
loop head with the `gp.Camera.autodetect()` result the body would fetch.
Returns `none` when the schedule is exhausted while the loop is still
waiting, otherwise the final value of `camera_list` (`none` = never
assigned). -/
def find_camera_loop :
    Option (List (String × String)) → List (Bool × List (String × String)) →
    Option (Option (List (String × String)))
  | _, [] => none
  | cl, (interrupted, poll) :: rest =>
    if cl.getD [] = [] ∧ interrupted = false then find_camera_loop (some poll) rest
    else some cl

/-- `CameraWorker.__find_camera` (lines 290-299): after the wait loop,
`name, _ = camera_list[0]` — a `TypeError` when `camera_list` was never
assigned, an `IndexError` when the last autodetect was empty; neither is
caught. -/
def find_camera (inputs : List (Bool × List (String × String))) :
    Option (Except String CameraState) :=
  match find_camera_loop none inputs with
  | none => none
  | some none => some (Except.error "TypeError: NoneType object is not subscriptable")
  | some (some []) => some (Except.error "IndexError: list index out of range")
  | some (some (nm :: _)) => some (Except.ok (CameraState.found nm.1))

/-- The device-side configuration state for the `writeBatch` claims: the
current tree (flat name-value view) and the log of `camera.set_config`
calls. -/
structure CameraDevice where
  config : List (String × String)
  setConfigCalls : List (List (String × String))
deriving DecidableEq

inductive ConfigMode
  | read
  | write
deriving DecidableEq

/-- A `set_value` on the child widget named `key` of an in-memory tree. -/
def setConfigEntry (cfg : List (String × String)) (key value : String) :
    List (String × String) :=
  cfg.map (fun kv => if kv.1 == key then (key, value) else kv)

/-- `CameraWorker.__open_config` (lines 630-640): `get_config`, run the
caller-supplied body on the tree, and in a `finally` step — executed
whether or not the body raised — `set_config` the tree back when the mode
is `"write"`.  The body is modelled as returning the tree as mutated so
far together with the exception it raised, if any; the exception is
re-raised (returned) after the write-back. -/
def open_config (mode : ConfigMode) (cam : CameraDevice)
    (body : List (String × String) → List (String × String) × Option String) :
    CameraDevice × Option String :=
  let r := body cam.config
  match mode with
  | ConfigMode.write =>
    ({ cam with config := r.1, setConfigCalls := cam.setConfigCalls ++ [r.1] }, r.2)
  | ConfigMode.read => (cam, r.2)

/-! ## Concrete fixtures used by witnesses and counterexamples -/

/-- A connected, idle worker (the state `captureImages` is normally
entered from). -/
def baseWorker : CameraWorker :=
  { state := CameraState.ready (some "Nikon D800E")
    filesCounter := 0
    captureComplete := false
    shouldCancel := false
    cameraPresent := true
    cameraName := some "Nikon D800E"
    interruptionRequested := false }

/-- A path template of the shape `main.py` builds:
`<dir>/<name>_${num}${extension}`. -/
def scenarioATpl : List TplPart :=
  [TplPart.lit "/sess/img_", TplPart.num, TplPart.extension]

/-- Scenario A request: `numImages = 60`, RAW+JPEG (so
`expectFiles = 2`), `maxBurst = 10`, hardware trigger. -/
def scenarioAReq : CaptureImagesRequest :=
  mkCaptureImagesRequest scenarioATpl 60 CaptureFormat.jpegAndRaw 10 false

/-- A burst-capable profile. -/
def burstProfile : Profile :=
  { use_burst := true, burstnumber_property_name := "burstnumber" }

/-- Device response to one burst trigger in Scenario A: 20 `FileAdded`
events (10 shots × 2 files) followed by `CaptureComplete`. -/
def scenarioABatch : List WorkerInput :=
  List.replicate 20 (WorkerInput.hw (DeviceEvent.fileAdded "/store" "IMG.JPG")) ++
    [WorkerInput.hw DeviceEvent.captureComplete]

/-- The full Scenario A run: 6 bursts delivering exactly 120 `FileAdded`
events, no errors, elapsed time abstracted to 0. -/
def scenarioARun : CameraWorker × List Action :=
  captureImages burstProfile scenarioAReq baseWorker []
    (List.replicate 6 scenarioABatch) none none 0

/-- A worker in the middle of a Scenario A capture (used to exercise the
drain and a single loop iteration directly). -/
def capWorker : CameraWorker :=
  { baseWorker with state := CameraState.captureInProgress scenarioAReq 0 }

/-- Under-delivery fixture: request of 10 RAW+JPEG shots
(`remaining = 20`), of which the first burst delivers only 8 files. -/
def underReq : CaptureImagesRequest :=
  mkCaptureImagesRequest scenarioATpl 10 CaptureFormat.jpegAndRaw 10 false

def underWorker : CameraWorker :=
  { baseWorker with state := CameraState.captureInProgress underReq 0 }

def underBatch : List WorkerInput :=
  List.replicate 8 (WorkerInput.hw (DeviceEvent.fileAdded "/store" "IMG.JPG")) ++
    [WorkerInput.hw DeviceEvent.captureComplete]

/-- Over-delivery fixture: a single-image JPEG request for which the
device delivers two files (e.g. a double manual trigger). -/
def overReq : CaptureImagesRequest :=
  mkCaptureImagesRequest scenarioATpl 1 CaptureFormat.jpeg 1 false

def overRun : CameraWorker × List Action :=
  captureImages burstProfile overReq baseWorker []
    [[WorkerInput.hw (DeviceEvent.fileAdded "/s" "A.JPG"),
      WorkerInput.hw (DeviceEvent.fileAdded "/s" "B.JPG"),
      WorkerInput.hw DeviceEvent.captureComplete]] none none 0

/-- Drain input in which a second in-flight file arrives after the cancel
command has been processed. -/
def c4Inputs : List WorkerInput :=
  [WorkerInput.hw (DeviceEvent.fileAdded "/store" "A.JPG"),
   WorkerInput.cancelCommand,
   WorkerInput.hw (DeviceEvent.fileAdded "/store" "B.JPG")]

/-- Device with a single configuration property, no writes yet. -/
def c2Device : CameraDevice := { config := [("iso", "100")], setConfigCalls := [] }

/-- A mutation body that sets `iso` and then raises. -/
def c2Body : List (String × String) → List (String × String) × Option String :=
  fun cfg => (setConfigEntry cfg "iso" "200", some "boom")

/-! ## Helper lemmas about the event drain -/

theorem div_le_of_le_mul {fc E N : Nat} (h : fc ≤ N * E) : fc / E ≤ N := by
  rcases Nat.eq_zero_or_pos E with hE | hE
  · simp [hE]
  · have h2 : fc / E ≤ N * E / E := Nat.div_le_div_right h
    rwa [Nat.mul_div_cancel _ hE] at h2

/-- While `shouldCancel` is set, a `FileAdded` event always hits the
rejected branch and breaks out of the drain. -/
theorem handleFileAdded_cancelled (w : CameraWorker) (folder name : String)
    (h : w.shouldCancel = true) : handleFileAdded w folder name = (w, [], true) := by
  unfold handleFileAdded
  cases hs : w.state <;> simp [h]

/-- Draining with `shouldCancel` set accepts nothing: the files counter is
frozen, no file is saved, no progress state is emitted, and the state can
only change to `CaptureCancelling` (by a redundant cancel command). -/
theorem drain_cancelled (l : List WorkerInput) :
    ∀ w : CameraWorker, w.shouldCancel = true →
      (empty_event_queue w l).1.filesCounter = w.filesCounter ∧
      (empty_event_queue w l).1.shouldCancel = true ∧
      savePaths (empty_event_queue w l).2 = [] ∧
      cipCounts (empty_event_queue w l).2 = [] ∧
      ((empty_event_queue w l).1.state = w.state ∨
        (empty_event_queue w l).1.state = CameraState.captureCancelling) := by
  induction l with
  | nil => intro w h; simp [empty_event_queue, h, savePaths, cipCounts]
  | cons i rest ih =>
    intro w h
    cases i with
    | hw ev =>
      cases ev with
      | fileAdded folder name =>
        simp [empty_event_queue, handleFileAdded_cancelled w folder name h, handleInput, h,
          savePaths, cipCounts]
      | captureComplete =>
        have step := ih { w with captureComplete := true } (by simpa using h)
        simpa [empty_event_queue, handleInput] using step
      | unknownEvent d =>
        have step := ih w h
        simpa [empty_event_queue, handleInput] using step
    | cancelCommand =>
      have step :=
        ih { w with shouldCancel := true, state := CameraState.captureCancelling } (by simp)
      obtain ⟨h1, h2, h3, h4, h5⟩ := step
      refine ⟨by simpa [empty_event_queue, handleInput, cancelHandler] using h1,
        by simpa [empty_event_queue, handleInput, cancelHandler] using h2,
        ?_, ?_, ?_⟩
      · simpa [empty_event_queue, handleInput, cancelHandler, savePaths, savePath] using h3
      · simpa [empty_event_queue, handleInput, cancelHandler, cipCounts, cipCount] using h4
      · right
        rcases h5 with h5 | h5 <;>
          simpa [empty_event_queue, handleInput, cancelHandler] using h5

/-- The drain never writes a configuration property. -/
theorem handleInput_no_cfg (w : CameraWorker) (i : WorkerInput) :
    cfgWrites (handleInput w i).2.1 = [] := by
  cases i with
  | hw ev =>
    cases ev with
    | fileAdded folder name =>
      show cfgWrites (handleFileAdded w folder name).2.1 = []
      unfold handleFileAdded
      cases hs : w.state
      case captureInProgress req c =>
        by_cases hc : w.shouldCancel = true ∨ w.interruptionRequested = true
        · simp [hc, cfgWrites]
        · by_cases hm : (w.filesCounter + 1) % req.expectFiles = 0 <;>
            simp [hc, hm, cfgWrites, cfgWrite]
      all_goals simp [cfgWrites]
    | captureComplete => simp [handleInput, cfgWrites]
    | unknownEvent d => simp [handleInput, cfgWrites]
  | cancelCommand => simp [handleInput, cancelHandler, cfgWrites, cfgWrite]

/-- No configuration write is emitted while draining the event queue. -/
theorem drain_no_cfg (l : List WorkerInput) :
    ∀ w : CameraWorker, cfgWrites (empty_event_queue w l).2 = [] := by
  induction l with
  | nil => intro w; simp [empty_event_queue, cfgWrites]
  | cons i rest ih =>
    intro w
    have hcfg := handleInput_no_cfg w i
    rcases hh : handleInput w i with ⟨w1, acts, brk⟩
    rw [hh] at hcfg
    cases brk with
    | true => simpa [empty_event_queue, hh] using hcfg
    | false =>
      have hacts : cfgWrites acts = [] := by simpa using hcfg
      have hrest := ih w1
      simp only [empty_event_queue, hh]
      simp only [cfgWrites] at hacts hrest ⊢
      rw [List.filterMap_append, hacts, hrest]
      rfl

/-- Invariant of one drain pass entered while a capture is in progress:
the files counter never decreases and grows by at most one per `FileAdded`
event; the emitted progress counts form a non-decreasing chain bracketed
by `filesCounter / expectFiles` before and after the pass; and the state
stays `CaptureInProgress` for the same request unless a cancel command
moved it to `CaptureCancelling`. -/
theorem drain_cip_inv (l : List WorkerInput) :
    ∀ (w : CameraWorker) (req : CaptureImagesRequest) (c : Nat),
      w.state = CameraState.captureInProgress req c →
      w.filesCounter ≤ (empty_event_queue w l).1.filesCounter ∧
      (empty_event_queue w l).1.filesCounter ≤ w.filesCounter + countFileAdded l ∧
      List.Chain' (· ≤ ·) (cipCounts (empty_event_queue w l).2) ∧
      (∀ x ∈ cipCounts (empty_event_queue w l).2,
        w.filesCounter / req.expectFiles ≤ x ∧
        x ≤ (empty_event_queue w l).1.filesCounter / req.expectFiles) ∧
      ((∃ c2, (empty_event_queue w l).1.state =
          CameraState.captureInProgress req c2) ∨
        ((empty_event_queue w l).1.state = CameraState.captureCancelling ∧
          (empty_event_queue w l).1.shouldCancel = true)) := by
  induction l with
  | nil =>
    intro w req c hst
    refine ⟨le_refl _, by simp [empty_event_queue, countFileAdded], ?_, ?_, ?_⟩
    · simp [empty_event_queue, cipCounts]
    · simp [empty_event_queue, cipCounts]
    · exact Or.inl ⟨c, by simpa [empty_event_queue] using hst⟩
  | cons i rest ih =>
    intro w req c hst
    cases i with
    | cancelCommand =>
      have step := drain_cancelled rest
        { w with shouldCancel := true, state := CameraState.captureCancelling } (by simp)
      obtain ⟨s1, s2, s3, s4, s5⟩ := step
      have s1w : (empty_event_queue
          { w with shouldCancel := true, state := CameraState.captureCancelling }
          rest).1.filesCounter = w.filesCounter := by simpa using s1
      simp only [cipCounts] at s4
      simp only [empty_event_queue, handleInput, cancelHandler]
      refine ⟨le_of_eq s1w.symm, ?_, ?_, ?_, ?_⟩
      · rw [s1w]
        simp only [countFileAdded]
        exact Nat.le_add_right _ _
      · simp [cipCounts, cipCount, List.filterMap_cons, s4]
      · intro x hx
        exfalso
        simp [cipCounts, cipCount, List.filterMap_cons, s4] at hx
      · right
        refine ⟨?_, s2⟩
        rcases s5 with s5 | s5 <;> simpa using s5
    | hw ev =>
      cases ev with
      | captureComplete =>
        have step := ih { w with captureComplete := true } req c (by simpa using hst)
        simpa [empty_event_queue, handleInput, countFileAdded] using step
      | unknownEvent d =>
        have step := ih w req c hst
        simpa [empty_event_queue, handleInput, countFileAdded] using step
      | fileAdded folder name =>
        by_cases hc : w.shouldCancel = true ∨ w.interruptionRequested = true
        · have hfa : handleFileAdded w folder name = (w, [], true) := by
            unfold handleFileAdded
            rw [hst]
            simp [hc]
          simp only [empty_event_queue, handleInput, hfa]
          refine ⟨le_refl _, ?_, ?_, ?_, Or.inl ⟨c, hst⟩⟩
          · simp only [countFileAdded]
            omega
          · simp [cipCounts]
          · intro x hx
            simp [cipCounts] at hx
        · by_cases hm : (w.filesCounter + 1) % req.expectFiles = 0
          · have hfa : handleFileAdded w folder name =
                ({ w with
                    filesCounter := w.filesCounter + 1
                    state := CameraState.captureInProgress req
                      ((w.filesCounter + 1) / req.expectFiles) },
                 [Action.substitutedNum (zfill (toString (w.filesCounter + 1 + 1)) 3),
                  Action.saveFile (substituteTemplate req.filePathTemplate
                    (splitext name).1 (splitext name).2
                    (zfill (toString (w.filesCounter + 1 + 1)) 3)),
                  Action.fileReceived (substituteTemplate req.filePathTemplate
                    (splitext name).1 (splitext name).2
                    (zfill (toString (w.filesCounter + 1 + 1)) 3)),
                  Action.emitState (CameraState.captureInProgress req
                    ((w.filesCounter + 1) / req.expectFiles)),
                  Action.deleteFile folder name], false) := by
              unfold handleFileAdded
              rw [hst]
              simp [hc, hm]
            have step := ih
              { w with
                filesCounter := w.filesCounter + 1
                state := CameraState.captureInProgress req
                  ((w.filesCounter + 1) / req.expectFiles) } req
              ((w.filesCounter + 1) / req.expectFiles) rfl
            obtain ⟨s1, s2, s3, s4, s5⟩ := step
            simp only [empty_event_queue, handleInput, hfa] at *
            refine ⟨?_, ?_, ?_, ?_, ?_⟩
            · exact le_trans (Nat.le_succ _) (by simpa using s1)
            · simp only [countFileAdded]
              omega
            · simp only [cipCounts, cipCount, List.filterMap_cons]
              simp only [cipCounts] at s3
              refine List.chain'_cons'.mpr ⟨?_, s3⟩
              intro y hy
              have hymem := List.mem_of_mem_head? hy
              have := (s4 y (by simpa [cipCounts, cipCount] using hymem)).1
              simpa using this
            · intro x hx
              simp only [cipCounts, cipCount, List.filterMap_cons] at hx
              rcases List.mem_cons.mp hx with rfl | hx2
              · constructor
                · exact Nat.div_le_div_right (Nat.le_succ _)
                · exact Nat.div_le_div_right (by simpa using s1)
              · have h4 := s4 x (by simpa [cipCounts, cipCount] using hx2)
                refine ⟨le_trans (Nat.div_le_div_right (Nat.le_succ _)) ?_, ?_⟩
                · simpa using h4.1
                · simpa using h4.2
            · exact s5
          · have hfa : handleFileAdded w folder name =
                ({ w with
                    filesCounter := w.filesCounter + 1
                    state := CameraState.captureInProgress req c },
                 [Action.substitutedNum (zfill (toString (w.filesCounter + 1 + 1)) 3),
                  Action.saveFile (substituteTemplate req.filePathTemplate
                    (splitext name).1 (splitext name).2
                    (zfill (toString (w.filesCounter + 1 + 1)) 3)),
                  Action.fileReceived (substituteTemplate req.filePathTemplate
                    (splitext name).1 (splitext name).2
                    (zfill (toString (w.filesCounter + 1 + 1)) 3)),
                  Action.deleteFile folder name], false) := by
              unfold handleFileAdded
              rw [hst]
              simp [hc, hm]
            have step := ih
              { w with
                filesCounter := w.filesCounter + 1
                state := CameraState.captureInProgress req c } req c rfl
            obtain ⟨s1, s2, s3, s4, s5⟩ := step
            simp only [empty_event_queue, handleInput, hfa] at *
            refine ⟨?_, ?_, ?_, ?_, ?_⟩
            · exact le_trans (Nat.le_succ _) (by simpa using s1)
            · simp only [countFileAdded]
              omega
            · simpa [cipCounts, cipCount, List.filterMap_cons] using s3
            · intro x hx
              simp only [cipCounts, cipCount, List.filterMap_cons] at hx
              have h4 := s4 x (by simpa [cipCounts, cipCount] using hx)
              refine ⟨le_trans (Nat.div_le_div_right (Nat.le_succ _)) ?_, ?_⟩
              · simpa using h4.1
              · simpa using h4.2
            · exact s5

/-- A worker whose `shouldCancel` flag is already set executes zero
capture-loop iterations. -/
theorem captureLoop_cancelled (prof : Profile) (req : CaptureImagesRequest)
    (errAt : Option (Nat × String)) (batches : List (List WorkerInput))
    (w : CameraWorker) (i : Nat) (h : w.shouldCancel = true) :
    captureLoop prof req errAt w batches i = (w, [], none) := by
  cases batches <;> simp [captureLoop, h]

/-- The non-`state` fields of the worker are untouched by
`__stop_live_view`. -/
theorem stop_live_view_fields (w : CameraWorker) :
    (stop_live_view w).1.filesCounter = w.filesCounter ∧
    (stop_live_view w).1.shouldCancel = w.shouldCancel ∧
    (stop_live_view w).1.interruptionRequested = w.interruptionRequested ∧
    (stop_live_view w).1.cameraPresent = w.cameraPresent ∧
    (stop_live_view w).1.cameraName = w.cameraName := by
  unfold stop_live_view
  cases w.state <;> simp

/-- The drain invariant lifted to one full capture-loop iteration (the
extra burst-write and trigger actions emit no progress states). -/
theorem captureIter_cip_inv (prof : Profile) (req : CaptureImagesRequest)
    (w : CameraWorker) (batch : List WorkerInput) (c : Nat)
    (hst : w.state = CameraState.captureInProgress req c) :
    w.filesCounter ≤ (captureIter prof req w batch).1.filesCounter ∧
    (captureIter prof req w batch).1.filesCounter ≤
      w.filesCounter + countFileAdded batch ∧
    List.Chain' (· ≤ ·) (cipCounts (captureIter prof req w batch).2) ∧
    (∀ x ∈ cipCounts (captureIter prof req w batch).2,
      w.filesCounter / req.expectFiles ≤ x ∧
      x ≤ (captureIter prof req w batch).1.filesCounter / req.expectFiles) ∧
    ((∃ c2, (captureIter prof req w batch).1.state =
        CameraState.captureInProgress req c2) ∨
      ((captureIter prof req w batch).1.state = CameraState.captureCancelling ∧
        (captureIter prof req w batch).1.shouldCancel = true)) := by
  have step := drain_cip_inv batch { w with captureComplete := false } req c
    (by simpa using hst)
  obtain ⟨s1, s2, s3, s4, s5⟩ := step
  have h1 : (captureIter prof req w batch).1 =
      (empty_event_queue { w with captureComplete := false } batch).1 := rfl
  have hacts : cipCounts (captureIter prof req w batch).2 =
      cipCounts (empty_event_queue { w with captureComplete := false } batch).2 := by
    unfold captureIter
    by_cases hub : prof.use_burst = true <;>
      by_cases hm : req.manualTrigger = false <;>
        simp [hub, hm, cipCounts, cipCount, List.filterMap_append]
  refine ⟨?_, ?_, ?_, ?_, ?_⟩
  · rw [h1]
    simpa using s1
  · rw [h1]
    simpa using s2
  · rw [hacts]
    exact s3
  · intro x hx
    rw [hacts] at hx
    have h4 := s4 x hx
    rw [h1]
    exact ⟨by simpa using h4.1, h4.2⟩
  · rw [h1]
    exact s5

/-- With no error injected, the capture loop reports no error. -/
theorem captureLoop_err_none (prof : Profile) (req : CaptureImagesRequest)
    (batches : List (List WorkerInput)) :
    ∀ (w : CameraWorker) (i : Nat),
      (captureLoop prof req none w batches i).2.2 = none := by
  induction batches with
  | nil => intro w i; simp [captureLoop]
  | cons b rest ih =>
    intro w i
    by_cases hcond : 0 < req.numImages * req.expectFiles - w.filesCounter
        ∧ w.shouldCancel = false ∧ w.interruptionRequested = false
    · simp only [captureLoop, if_pos hcond, errHit]
      exact ih _ _
    · simp only [captureLoop, if_neg hcond]

/-- The iteration invariant folded over the whole capture loop: the files
counter is non-decreasing, bounded by the total number of delivered
`FileAdded` events, and the emitted progress counts form a non-decreasing
chain bracketed by the counter values before and after the loop. -/
theorem captureLoop_cip_inv (prof : Profile) (req : CaptureImagesRequest)
    (errAt : Option (Nat × String)) (batches : List (List WorkerInput)) :
    ∀ (w : CameraWorker) (c i : Nat),
      w.state = CameraState.captureInProgress req c →
      w.filesCounter ≤ (captureLoop prof req errAt w batches i).1.filesCounter ∧
      (captureLoop prof req errAt w batches i).1.filesCounter ≤
        w.filesCounter + countFileAddedBatches batches ∧
      List.Chain' (· ≤ ·) (cipCounts (captureLoop prof req errAt w batches i).2.1) ∧
      (∀ x ∈ cipCounts (captureLoop prof req errAt w batches i).2.1,
        w.filesCounter / req.expectFiles ≤ x ∧
        x ≤ (captureLoop prof req errAt w batches i).1.filesCounter /
          req.expectFiles) := by
  induction batches with
  | nil =>
    intro w c i hst
    simp [captureLoop, cipCounts, countFileAddedBatches]
  | cons b rest ih =>
    intro w c i hst
    by_cases hcond : 0 < req.numImages * req.expectFiles - w.filesCounter
        ∧ w.shouldCancel = false ∧ w.interruptionRequested = false
    · cases herr : errHit errAt i with
      | some msg =>
        simp only [captureLoop, if_pos hcond, herr]
        refine ⟨le_refl _, ?_, by simp [cipCounts], by simp [cipCounts]⟩
        simp only [countFileAddedBatches]
        omega
      | none =>
        have iter := captureIter_cip_inv prof req w b c hst
        obtain ⟨i1, i2, i3, i4, i5⟩ := iter
        simp only [captureLoop, if_pos hcond, herr]
        rcases i5 with ⟨c2, hstate⟩ | ⟨hstate, hflag⟩
        · have step := ih (captureIter prof req w b).1 c2 (i + 1) hstate
          obtain ⟨s1, s2, s3, s4⟩ := step
          refine ⟨le_trans i1 s1, ?_, ?_, ?_⟩
          · simp only [countFileAddedBatches]
            omega
          · simp only [cipCounts, List.filterMap_append]
            refine List.Chain'.append ?_ ?_ ?_
            · simpa [cipCounts] using i3
            · simpa [cipCounts] using s3
            · intro x hxl y hyh
              have hx := (i4 x (by simpa [cipCounts] using
                List.mem_of_mem_getLast? hxl)).2
              have hy := (s4 y (by simpa [cipCounts] using
                List.mem_of_mem_head? hyh)).1
              exact le_trans hx hy
          · intro x hx
            simp only [cipCounts, List.filterMap_append, List.mem_append] at hx
            rcases hx with hx | hx
            · have h4 := i4 x (by simpa [cipCounts] using hx)
              refine ⟨h4.1, le_trans h4.2 (Nat.div_le_div_right s1)⟩
            · have h4 := s4 x (by simpa [cipCounts] using hx)
              refine ⟨le_trans (Nat.div_le_div_right i1) h4.1, h4.2⟩
        · have hrest := captureLoop_cancelled prof req errAt rest
            (captureIter prof req w b).1 (i + 1) hflag
          rw [hrest]
          refine ⟨i1, ?_, ?_, ?_⟩
          · simp only [countFileAddedBatches]
            omega
          · simpa [cipCounts, List.filterMap_append] using i3
          · intro x hx
            have h4 := i4 x (by simpa [cipCounts, List.filterMap_append] using hx)
            exact h4
    · simp only [captureLoop, if_neg hcond]
      refine ⟨le_refl _, ?_, by simp [cipCounts], by simp [cipCounts]⟩
      simp only [countFileAddedBatches]
      omega

/-- Stopping live view emits no `CaptureInProgress` state. -/
theorem stop_live_view_cips (w : CameraWorker) :
    cipCounts (stop_live_view w).2 = [] := by
  unfold stop_live_view
  cases w.state <;> simp [cipCounts, cipCount]

/-! ## C5 — progress monotonicity and bound -/

/-- C5, counterexample.  A request for a single JPEG image for which the
device delivers two files in one drain (nothing caps acceptance): the
emitted `CaptureInProgress` counts are 0, 1, 2 — and 2 exceeds
`numImages = 1`.  The "never exceeds `request.numImages`" part of the
claim fails under over-delivery. -/
theorem progress_exceeds_numImages_on_overdelivery :
    cipCounts overRun.2 = [0, 1, 2] ∧
    overReq.numImages = 1 ∧
    ¬ (∀ x ∈ cipCounts overRun.2, x ≤ overReq.numImages) := by
  decide

/-- C5, amended.  Within one capture operation the emitted
`CaptureInProgress.num_captured` sequence starts at 0 and is monotonically
non-decreasing — unconditionally, for every device behavior including
over-delivery; and *provided* the device delivers at most
`numImages * expectFiles` `FileAdded` events (the code itself does not cap
acceptance), no emitted count exceeds `request.numImages`. -/
theorem progress_monotone_and_bounded (prof : Profile) (req : CaptureImagesRequest)
    (w : CameraWorker) (batches : List (List WorkerInput)) (elapsed : Nat) :
    (cipCounts (captureImages prof req w [] batches none none elapsed).2).head?
      = some 0 ∧
    List.Chain' (· ≤ ·)
      (cipCounts (captureImages prof req w [] batches none none elapsed).2) ∧
    (countFileAddedBatches batches ≤ req.numImages * req.expectFiles →
      ∀ x ∈ cipCounts (captureImages prof req w [] batches none none elapsed).2,
        x ≤ req.numImages) := by
  have hlv := stop_live_view_cips w
  have herr := captureLoop_err_none prof req batches
    (captureStartWorker (stop_live_view w).1 req) 0
  have inv := captureLoop_cip_inv prof req none batches
    (captureStartWorker (stop_live_view w).1 req) 0 0 rfl
  obtain ⟨s1, s2, s3, s4⟩ := inv
  have hkey : cipCounts (captureImages prof req w [] batches none none elapsed).2 =
      0 :: cipCounts (captureLoop prof req none
        (captureStartWorker (stop_live_view w).1 req) batches 0).2.1 := by
    simp only [cipCounts] at hlv
    simp only [captureImages, empty_event_queue, herr]
    by_cases hsc : (captureLoop prof req none
        (captureStartWorker (stop_live_view w).1 req) batches 0).1.shouldCancel = false <;>
      by_cases hcp : (captureLoop prof req none
        (captureStartWorker (stop_live_view w).1 req) batches 0).1.cameraPresent = true <;>
        simp [hsc, hcp, cipCounts, cipCount, List.filterMap_append, hlv]
  refine ⟨?_, ?_, ?_⟩
  · rw [hkey]
    rfl
  · rw [hkey]
    exact List.chain'_cons'.mpr ⟨fun y hy => Nat.zero_le y, s3⟩
  · intro hdel x hx
    rw [hkey] at hx
    rcases List.mem_cons.mp hx with rfl | hx2
    · exact Nat.zero_le _
    · have h4 := (s4 x hx2).2
      have hfc : (captureLoop prof req none
          (captureStartWorker (stop_live_view w).1 req) batches 0).1.filesCounter ≤
          req.numImages * req.expectFiles := by
        have h0 : (captureStartWorker (stop_live_view w).1 req).filesCounter = 0 := rfl
        omega
      exact le_trans h4 (div_le_of_le_mul hfc)

/-- C5, witness for the amended theorem: two JPEG images, the device
delivers exactly two files — counts 0, 1, 2 with bound 2. -/
theorem progress_monotone_and_bounded_witness :
    countFileAddedBatches
        [[WorkerInput.hw (DeviceEvent.fileAdded "/s" "A.JPG"),
          WorkerInput.hw (DeviceEvent.fileAdded "/s" "B.JPG"),
          WorkerInput.hw DeviceEvent.captureComplete]] ≤
      (mkCaptureImagesRequest scenarioATpl 2 CaptureFormat.jpeg 1 false).numImages *
        (mkCaptureImagesRequest scenarioATpl 2 CaptureFormat.jpeg 1 false).expectFiles ∧
    (cipCounts (captureImages burstProfile
        (mkCaptureImagesRequest scenarioATpl 2 CaptureFormat.jpeg 1 false) baseWorker []
        [[WorkerInput.hw (DeviceEvent.fileAdded "/s" "A.JPG"),
          WorkerInput.hw (DeviceEvent.fileAdded "/s" "B.JPG"),
          WorkerInput.hw DeviceEvent.captureComplete]] none none 0).2).head? = some 0 ∧
    (∀ x ∈ cipCounts (captureImages burstProfile
        (mkCaptureImagesRequest scenarioATpl 2 CaptureFormat.jpeg 1 false) baseWorker []
        [[WorkerInput.hw (DeviceEvent.fileAdded "/s" "A.JPG"),
          WorkerInput.hw (DeviceEvent.fileAdded "/s" "B.JPG"),
          WorkerInput.hw DeviceEvent.captureComplete]] none none 0).2,
      x ≤ (mkCaptureImagesRequest scenarioATpl 2 CaptureFormat.jpeg 1 false).numImages) :=
  ⟨by decide,
    (progress_monotone_and_bounded burstProfile
      (mkCaptureImagesRequest scenarioATpl 2 CaptureFormat.jpeg 1 false) baseWorker
      [[WorkerInput.hw (DeviceEvent.fileAdded "/s" "A.JPG"),
        WorkerInput.hw (DeviceEvent.fileAdded "/s" "B.JPG"),
        WorkerInput.hw DeviceEvent.captureComplete]] 0).1,
    (progress_monotone_and_bounded burstProfile
      (mkCaptureImagesRequest scenarioATpl 2 CaptureFormat.jpeg 1 false) baseWorker
      [[WorkerInput.hw (DeviceEvent.fileAdded "/s" "A.JPG"),
        WorkerInput.hw (DeviceEvent.fileAdded "/s" "B.JPG"),
        WorkerInput.hw DeviceEvent.captureComplete]] 0).2.2 (by decide)⟩

/-! ## C4 — acceptance of in-flight files around cancellation -/

/-- C4, counterexample.  A capture in progress receives file A, then the
cancel command, then in-flight file B.  B is *not* accepted: the files
counter stays at 1 (not 2) and only one save is performed — `__cancel`
sets the flag and the `CaptureCancelling` state in one step, so no file
delivered after the cancellation is observed is saved or counted. -/
theorem cancel_drops_inflight_file :
    (empty_event_queue capWorker c4Inputs).1.filesCounter = 1 ∧
    (empty_event_queue capWorker c4Inputs).1.filesCounter ≠ 2 ∧
    (savePaths (empty_event_queue capWorker c4Inputs).2).length = 1 ∧
    (empty_event_queue capWorker c4Inputs).1.state = CameraState.captureCancelling := by
  decide

/-- C4, amended.  The cancelling transition is processed atomically with
the observation of the cancellation request: `__cancel` sets `shouldCancel`
and `CaptureCancelling` in one step, and from that point on *no* `FileAdded`
event is accepted — in-flight frames delivered afterwards are logged and
discarded (the drain pass breaks), not saved and not counted.  Only files
delivered before the cancel command is processed are accepted. -/
theorem after_cancel_no_files_accepted (w : CameraWorker) (inputs : List WorkerInput) :
    (empty_event_queue w (WorkerInput.cancelCommand :: inputs)).1.filesCounter =
      w.filesCounter ∧
    savePaths (empty_event_queue w (WorkerInput.cancelCommand :: inputs)).2 = [] ∧
    (empty_event_queue w (WorkerInput.cancelCommand :: inputs)).1.state =
      CameraState.captureCancelling ∧
    (empty_event_queue w (WorkerInput.cancelCommand :: inputs)).1.shouldCancel = true := by
  have step :=
    drain_cancelled inputs
      { w with shouldCancel := true, state := CameraState.captureCancelling } (by simp)
  obtain ⟨h1, h2, h3, h4, h5⟩ := step
  refine ⟨by simpa [empty_event_queue, handleInput, cancelHandler] using h1,
    by simpa [empty_event_queue, handleInput, cancelHandler, savePaths, savePath] using h3,
    ?_,
    by simpa [empty_event_queue, handleInput, cancelHandler] using h2⟩
  rcases h5 with h5 | h5 <;>
    simpa [empty_event_queue, handleInput, cancelHandler] using h5

/-! ## C3 — burst-count bookkeeping -/

/-- C3, counterexample.  Under-delivery: for a request of 10 RAW+JPEG
shots, `remaining = 20` and the pre-trigger write is
`min(10, 20 / 2) = 10`.  The drain delivers only 8 files, so the
recomputed remaining is 12 and the value derived from it would be
`min(10, 12 / 2) = 6` — but the post-drain write carries the stale 10:
the burst-count property is *not* rewritten from the newly recomputed
remaining count. -/
theorem burst_rewrite_not_recomputed :
    cfgWrites (captureIter burstProfile underReq underWorker underBatch).2 =
      [("burstnumber", 10), ("burstnumber", 10)] ∧
    (captureIter burstProfile underReq underWorker underBatch).1.filesCounter = 8 ∧
    min underReq.maxBurst
      ((underReq.numImages * underReq.expectFiles - 8) / underReq.expectFiles) = 6 ∧
    (10 : Nat) ≠ 6 := by
  decide

/-- C3, amended.  In every capture-loop iteration with a burst-triggering
profile (and hardware trigger), the value written before triggering is
`min(maxBurst, remaining / expectFiles)` computed by integer floor
division from the remaining count at the head of the iteration — and the
post-drain rewrite writes that *same* value again, not a value recomputed
from the shrunk remaining count.  (The recomputed value is only written at
the head of the *next* iteration, before the next trigger.) -/
theorem burst_writes_per_iteration (prof : Profile) (req : CaptureImagesRequest)
    (w : CameraWorker) (batch : List WorkerInput)
    (huse : prof.use_burst = true) (hman : req.manualTrigger = false) :
    cfgWrites (captureIter prof req w batch).2 =
      [(prof.burstnumber_property_name, burstVal req w),
       (prof.burstnumber_property_name, burstVal req w)] := by
  have hdrain := drain_no_cfg batch { w with captureComplete := false }
  unfold captureIter
  simp only [cfgWrites] at hdrain ⊢
  simp [huse, hman, List.filterMap_append, hdrain, cfgWrite]

/-- C3, witness for the amended theorem: the first Scenario A iteration
writes burst 10 before the trigger and the same 10 after the drain. -/
theorem burst_writes_per_iteration_witness :
    burstProfile.use_burst = true ∧ scenarioAReq.manualTrigger = false ∧
    cfgWrites (captureIter burstProfile scenarioAReq capWorker scenarioABatch).2 =
      [("burstnumber", 10), ("burstnumber", 10)] :=
  ⟨rfl, rfl,
    (burst_writes_per_iteration burstProfile scenarioAReq capWorker scenarioABatch
      rfl rfl).trans (by decide)⟩

/-! ## C1 — Scenario A (burst capture of 60 RAW+JPEG shots) -/

set_option maxRecDepth 100000 in
/-- C1, counterexample.  In the Scenario A run the first two saved files —
the two files of the first shot — receive the distinct sequence numbers
"002" and "003" (the worker increments `filesCounter` and then substitutes
`filesCounter + 1`), and 120 saves are performed, not 60: the claimed
numbering (zero-padded 1..60, both files of a shot sharing one number, 60
save+delete pairs) is false. -/
theorem scenarioA_numbering_refuted :
    (subNums scenarioARun.2).take 2 = ["002", "003"] ∧
    ("002" : String) ≠ "003" ∧
    (savePaths scenarioARun.2).length ≠ 60 := by
  decide

set_option maxRecDepth 100000 in
/-- C1, amended.  The Scenario A run does end with `CaptureFinished` whose
`num_captured` is 60, but it performs 120 save and 120 delete operations,
one per `FileAdded` event, and the zero-padded sequence numbers substituted
into the path template are "002".."121" — one fresh number per file
(`str(filesCounter + 1)` after the increment), not 1..60 shared per
shot. -/
theorem scenarioA_run_characterized :
    Action.emitState (CameraState.captureFinished scenarioAReq 0 60) ∈ scenarioARun.2 ∧
    scenarioARun.1.state = CameraState.ready (some "Nikon D800E") ∧
    (savePaths scenarioARun.2).length = 120 ∧
    deleteCount scenarioARun.2 = 120 ∧
    subNums scenarioARun.2 =
      (List.range 120).map (fun i => zfill (toString (i + 2)) 3) := by
  decide

/-! ## C2 — batched configuration writes (`__open_config("write")`) -/

/-- C2, counterexample.  A mutation body that sets `iso` to 200 and then
raises "boom": the exception propagates, but the device still receives a
`set_config` call carrying the partially mutated tree — the write-back is
not skipped on exception. -/
theorem writeBatch_partial_write_on_error :
    (open_config ConfigMode.write c2Device c2Body).2 = some "boom" ∧
    (open_config ConfigMode.write c2Device c2Body).1.setConfigCalls ≠ [] ∧
    (open_config ConfigMode.write c2Device c2Body).1.config = [("iso", "200")] := by
  decide

/-- C2, amended.  For every batched configuration write, the exception
raised by the mutation body propagates unchanged, but the `finally` block
of `__open_config` performs the write-back regardless: the device receives
exactly one `set_config` call carrying the tree as mutated so far (so a
partial write does occur on exception; the write-back is not conditional
on successful exit). -/
theorem open_config_write_always_writes_back
    (cam : CameraDevice)
    (body : List (String × String) → List (String × String) × Option String) :
    (open_config ConfigMode.write cam body).2 = (body cam.config).2 ∧
    (open_config ConfigMode.write cam body).1.config = (body cam.config).1 ∧
    (open_config ConfigMode.write cam body).1.setConfigCalls =
      cam.setConfigCalls ++ [(body cam.config).1] :=
  ⟨rfl, rfl, rfl⟩

/-! ## C7 — autofocus triggered outside live view -/

/-- C7, counterexample.  From the `Ready` state — which is not
`LiveViewActive` — the trigger-autofocus handler still enters
`FocusStarted`: the command is neither rejected nor a no-op. -/
theorem autofocus_from_ready_enters_focusStarted :
    baseWorker.state ≠ CameraState.liveViewActive ∧
    Action.emitState CameraState.focusStarted ∈
      (trigger_autofocus baseWorker FocusOutcome.success).2 ∧
    (trigger_autofocus baseWorker FocusOutcome.success).1.state =
      CameraState.liveViewActive := by
  decide

/-- C7, amended.  `__trigger_autofocus` performs no state guard at all:
from every prior state and for every focus outcome its first transition is
`FocusStarted` (and its `finally` step then forces `LiveViewActive`), so a
trigger-autofocus command received while not in `LiveViewActive` is
neither rejected nor a no-op. -/
theorem autofocus_unguarded (w : CameraWorker) (outcome : FocusOutcome) :
    (trigger_autofocus w outcome).2.head? =
      some (Action.emitState CameraState.focusStarted) := by
  cases outcome <;> rfl

/-! ## C8 — disconnect idempotence -/

/-- C8, counterexample.  A second disconnect does not raise, but it does
not end in the *same* `Disconnected` state as the first: the first
disconnect already cleared `camera_name`, so the second emits
`Disconnected(None, ...)` while the first emitted the camera name. -/
theorem double_disconnect_state_payload_differs :
    (disconnect_camera baseWorker false).1.state =
      CameraState.disconnected (some "Nikon D800E") false ∧
    (disconnect_camera (disconnect_camera baseWorker false).1 false).1.state =
      CameraState.disconnected none false ∧
    (disconnect_camera (disconnect_camera baseWorker false).1 false).1.state ≠
      (disconnect_camera baseWorker false).1.state := by
  decide

/-- C8, amended.  Disconnecting twice never raises (`camera.exit()` errors
— including the `AttributeError` from the already-absent handle — are
swallowed, which is what makes `disconnect_camera` a total function), and
the second call again ends in a `Disconnected` state with the camera
handle absent; but its `camera_name` payload is `None`, cleared by the
first disconnect, rather than the original name. -/
theorem double_disconnect_total (w : CameraWorker) (autoReconnect : Bool) :
    (disconnect_camera (disconnect_camera w autoReconnect).1 autoReconnect).1.state =
      CameraState.disconnected none autoReconnect ∧
    (disconnect_camera (disconnect_camera w autoReconnect).1 autoReconnect).1.cameraPresent
      = false ∧
    (disconnect_camera (disconnect_camera w autoReconnect).1 autoReconnect).1.cameraName
      = none ∧
    (disconnect_camera w autoReconnect).1.cameraPresent = false :=
  ⟨rfl, rfl, rfl, rfl⟩

/-! ## C9 — find-camera under interruption -/

/-- If every autodetect poll returns an empty list and the interruption
flag is eventually observed, the wait loop of `__find_camera` terminates
with a falsy `camera_list`. -/
theorem find_camera_loop_empty (inputs : List (Bool × List (String × String))) :
    ∀ cl : Option (List (String × String)),
      cl.getD [] = [] →
      (∀ p ∈ inputs, p.2 = []) →
      (∃ p ∈ inputs, p.1 = true) →
      ∃ cl2, find_camera_loop cl inputs = some cl2 ∧ cl2.getD [] = [] := by
  induction inputs with
  | nil =>
    intro cl h1 h2 h3
    simp at h3
  | cons p rest ih =>
    intro cl h1 h2 h3
    obtain ⟨intr, poll⟩ := p
    cases intr with
    | true => exact ⟨cl, by simp [find_camera_loop], h1⟩
    | false =>
      have hpoll : poll = [] := h2 (false, poll) (List.mem_cons_self _ _)
      have hrest2 : ∀ q ∈ rest, q.2 = [] := fun q hq => h2 q (List.mem_cons_of_mem _ hq)
      have hrest3 : ∃ q ∈ rest, q.1 = true := by
        rcases h3 with ⟨q, hq, hq1⟩
        rcases List.mem_cons.mp hq with rfl | hq2
        · simp at hq1
        · exact ⟨q, hq2, hq1⟩
      have step := ih (some poll) (by simp [hpoll]) hrest2 hrest3
      simpa [find_camera_loop, h1] using step

/-- C9 (confirmed).  If thread interruption is requested before any camera
has been autodetected, the wait loop of `__find_camera` exits with an
empty (or never-assigned) camera list, and the subsequent
`name, _ = camera_list[0]` raises an uncaught exception: the operation is
not total under cancellation and reaches no orderly state. -/
theorem find_camera_interrupted_raises
    (inputs : List (Bool × List (String × String)))
    (hpolls : ∀ p ∈ inputs, p.2 = [])
    (hintr : ∃ p ∈ inputs, p.1 = true) :
    ∃ err, find_camera inputs = some (Except.error err) := by
  obtain ⟨cl2, hloop, hcl⟩ := find_camera_loop_empty inputs none rfl hpolls hintr
  cases cl2 with
  | none =>
    exact ⟨"TypeError: NoneType object is not subscriptable",
      by simp [find_camera, hloop]⟩
  | some l =>
    have hl : l = [] := by simpa using hcl
    subst hl
    exact ⟨"IndexError: list index out of range", by simp [find_camera, hloop]⟩

/-- C9, witness: interruption requested at the very first loop-head check,
no camera ever detected. -/
theorem find_camera_interrupted_raises_witness :
    (∀ p ∈ [((true : Bool), ([] : List (String × String)))], p.2 = []) ∧
    (∃ p ∈ [((true : Bool), ([] : List (String × String)))], p.1 = true) ∧
    ∃ err, find_camera [(true, [])] = some (Except.error err) :=
  ⟨by decide, by decide, find_camera_interrupted_raises [(true, [])] (by decide) (by decide)⟩

/-! ## C10 — cancel command while no capture is in progress -/

/-- C10 (confirmed).  A cancel command received in the `Ready` state still
sets the cancellation flag and transitions to `CaptureCancelling`; the
flag is cleared only by the capture cleanup, so the next capture operation
executes zero trigger iterations, emits `CaptureCanceled` (and never
`CaptureFinished`), and its cleanup then clears the flag and returns the
worker to `Ready`. -/
theorem stale_cancel_flag_cancels_next_capture (prof : Profile)
    (req : CaptureImagesRequest) (w : CameraWorker) (n : Option String)
    (batches : List (List WorkerInput)) (elapsed : Nat)
    (hready : w.state = CameraState.ready n) (hcam : w.cameraPresent = true) :
    (cancelHandler w).1.shouldCancel = true ∧
    (cancelHandler w).1.state = CameraState.captureCancelling ∧
    triggerCount
      (captureImages prof req (cancelHandler w).1 [] batches none none elapsed).2 = 0 ∧
    Action.emitState (CameraState.captureCanceled req elapsed) ∈
      (captureImages prof req (cancelHandler w).1 [] batches none none elapsed).2 ∧
    (∀ e nc, Action.emitState (CameraState.captureFinished req e nc) ∉
      (captureImages prof req (cancelHandler w).1 [] batches none none elapsed).2) ∧
    (captureImages prof req (cancelHandler w).1 [] batches none none elapsed).1.shouldCancel
      = false ∧
    (captureImages prof req (cancelHandler w).1 [] batches none none elapsed).1.state =
      CameraState.ready w.cameraName := by
  refine ⟨rfl, rfl, ?_, ?_, ?_, ?_, ?_⟩ <;>
    simp [captureImages, captureStartWorker, cancelHandler, stop_live_view,
      empty_event_queue, captureLoop_cancelled, hcam, triggerCount, isTrigger]

/-- C10, witness: the cancel command arrives in `Ready`, then Scenario A
is started — zero hardware triggers are issued. -/
theorem stale_cancel_flag_cancels_next_capture_witness :
    baseWorker.state = CameraState.ready (some "Nikon D800E") ∧
    baseWorker.cameraPresent = true ∧
    triggerCount
      (captureImages burstProfile scenarioAReq (cancelHandler baseWorker).1 []
        (List.replicate 6 scenarioABatch) none none 5).2 = 0 ∧
    Action.emitState (CameraState.captureCanceled scenarioAReq 5) ∈
      (captureImages burstProfile scenarioAReq (cancelHandler baseWorker).1 []
        (List.replicate 6 scenarioABatch) none none 5).2 :=
  ⟨rfl, rfl,
    (stale_cancel_flag_cancels_next_capture burstProfile scenarioAReq baseWorker
      (some "Nikon D800E") (List.replicate 6 scenarioABatch) 5 rfl rfl).2.2.1,
    (stale_cancel_flag_cancels_next_capture burstProfile scenarioAReq baseWorker
      (some "Nikon D800E") (List.replicate 6 scenarioABatch) 5 rfl rfl).2.2.2.1⟩

/-! ## C6 — device error mid-capture and the always-executed cleanup -/

/-- C6 (confirmed).  When the device raises a generic error in the capture
loop, the operation emits `CaptureError` carrying the device message; the
always-executed cleanup clears the cancellation flag and — because the
`except gp.GPhoto2Error` around it stops its own failure from propagating
(the model function is total) — ends in `Ready(name)` when the cleanup
succeeds and in `ConnectionError` when the cleanup itself raises. -/
theorem capture_error_then_cleanup (prof : Profile) (req : CaptureImagesRequest)
    (w : CameraWorker) (batch : List WorkerInput) (rest : List (List WorkerInput))
    (msg : String) (cleanupError : Option String) (elapsed : Nat)
    (hcam : w.cameraPresent = true) (hcancel : w.shouldCancel = false)
    (hintr : w.interruptionRequested = false)
    (hpos : 0 < req.numImages * req.expectFiles) :
    Action.emitState (CameraState.captureError req msg) ∈
      (captureImages prof req w [] (batch :: rest) (some (0, msg)) cleanupError
        elapsed).2 ∧
    (captureImages prof req w [] (batch :: rest) (some (0, msg)) cleanupError
        elapsed).1.shouldCancel = false ∧
    (cleanupError = none →
      (captureImages prof req w [] (batch :: rest) (some (0, msg)) cleanupError
          elapsed).1.state = CameraState.ready w.cameraName) ∧
    (∀ e, cleanupError = some e →
      (captureImages prof req w [] (batch :: rest) (some (0, msg)) cleanupError
          elapsed).1.state = CameraState.connectionError e) := by
  cases hst : w.state <;> cases cleanupError <;>
    simp [captureImages, captureStartWorker, stop_live_view, empty_event_queue,
      captureLoop, errHit, hst, hcam, hcancel, hintr, hpos]

/-- C6, witness: Scenario A with an error in the first loop iteration,
once with a succeeding cleanup and once with a failing one. -/
theorem capture_error_then_cleanup_witness :
    (baseWorker.cameraPresent = true ∧ baseWorker.shouldCancel = false ∧
      baseWorker.interruptionRequested = false ∧
      0 < scenarioAReq.numImages * scenarioAReq.expectFiles) ∧
    Action.emitState (CameraState.captureError scenarioAReq "I/O problem") ∈
      (captureImages burstProfile scenarioAReq baseWorker []
        (scenarioABatch :: []) (some (0, "I/O problem")) none 3).2 ∧
    (captureImages burstProfile scenarioAReq baseWorker []
      (scenarioABatch :: []) (some (0, "I/O problem")) none 3).1.state =
      CameraState.ready (some "Nikon D800E") :=
  ⟨⟨rfl, rfl, rfl, by decide⟩,
    (capture_error_then_cleanup burstProfile scenarioAReq baseWorker scenarioABatch []
      "I/O problem" none 3 rfl rfl rfl (by decide)).1,
    (capture_error_then_cleanup burstProfile scenarioAReq baseWorker scenarioABatch []
      "I/O problem" none 3 rfl rfl rfl (by decide)).2.2.1 rfl⟩

end ByzanzCapture
